import Mathlib

/-!
Shallow embedding of the Health_App health-sample acquisition, normalization
and sync pipeline.

Sources embedded:
- frontend/src/health/healthTypes.ts (canonical sample model)
- frontend/src/health/sync.ts (toIngestSamples, uploadToBackend)
- frontend/src/api/types.ts (IngestSample, StorageMode)
- the platform connector module (requestPermissions / readLast24h, iOS
  HealthKit branch and Android Health Connect branch)

JavaScript numbers are modelled as rationals extended with NaN (`JsNum`):
`Number(undefined)` is NaN, and arithmetic propagates NaN.  Vendor record
structures carry exactly the fields the code reads, with `Option` for the
loosely-typed optional vendor fields.  Asynchronous platform queries are
modelled as `Except String`-valued results supplied by an environment
record: `Except.error` is a rejected promise, `Except.ok none` a promise
that resolved with a null/undefined record set, and `Except.ok (some l)`
a resolved record list.  `Promise.all` fails the join whenever any
sub-promise rejects, which the read functions mirror by pattern matching.
-/

/-- A JavaScript number: either NaN or a finite value (modelled as `ℚ`). -/
inductive JsNum where
  | nan : JsNum
  | num : ℚ → JsNum
deriving DecidableEq, Repr

/-- The JS `Number(x)` coercion applied to a possibly-missing numeric field:
`Number(undefined)` is NaN. -/
def jsNumber : Option ℚ → JsNum
  | none => JsNum.nan
  | some q => JsNum.num q

/-- JS multiplication; NaN propagates. -/
def JsNum.mul : JsNum → JsNum → JsNum
  | JsNum.num a, JsNum.num b => JsNum.num (a * b)
  | _, _ => JsNum.nan

/-- JS division by an integer divisor.  The call sites below always divide
by a value clamped to at least 1, so the zero-divisor case (Infinity in JS)
is left at NaN in the model. -/
def JsNum.divInt : JsNum → Int → JsNum
  | JsNum.num a, d => if d = 0 then JsNum.nan else JsNum.num (a / (d : ℚ))
  | JsNum.nan, _ => JsNum.nan

/-- JS `Math.round`: round half toward positive infinity. -/
def jsRound (q : ℚ) : Int := ⌊q + 1 / 2⌋

/-- A JS `Date`: milliseconds since the Unix epoch. -/
structure Date where
  ms : Int
deriving DecidableEq, Repr

/-- Civil (year, month, day) from days since the Unix epoch, proleptic
Gregorian, as computed by JavaScript `Date`. -/
def civilFromDays (z0 : Int) : Int × Int × Int :=
  let z := z0 + 719468
  let era := Int.fdiv z 146097
  let doe := z - era * 146097
  let yoe := (doe - doe / 1460 + doe / 36524 - doe / 146096) / 365
  let y := yoe + era * 400
  let doy := doe - (365 * yoe + yoe / 4 - yoe / 100)
  let mp := (5 * doy + 2) / 153
  let d := doy - (153 * mp + 2) / 5 + 1
  let m := mp + (if mp < 10 then 3 else -9)
  (y + (if m ≤ 2 then 1 else 0), m, d)

/-- Zero-pad a nonnegative integer to two digits. -/
def pad2 (n : Int) : String :=
  if n < 10 then "0" ++ toString n else toString n

/-- Zero-pad a nonnegative integer to three digits. -/
def pad3 (n : Int) : String :=
  if n < 10 then "00" ++ toString n
  else if n < 100 then "0" ++ toString n
  else toString n

/-- Zero-pad a nonnegative integer to four digits. -/
def pad4 (n : Int) : String :=
  if n < 10 then "000" ++ toString n
  else if n < 100 then "00" ++ toString n
  else if n < 1000 then "0" ++ toString n
  else toString n

/-- The JS built-in `Date.prototype.toISOString` (UTC,
`YYYY-MM-DDTHH:mm:ss.sssZ`), modelled for the four-digit-year range the
application exercises. -/
def Date.toISOString (d : Date) : String :=
  let days := Int.fdiv d.ms 86400000
  let msOfDay := d.ms - 86400000 * days
  let c := civilFromDays days
  let hh := msOfDay / 3600000
  let r1 := msOfDay % 3600000
  let mm := r1 / 60000
  let r2 := r1 % 60000
  let ss := r2 / 1000
  let mss := r2 % 1000
  pad4 c.1 ++ "-" ++ pad2 c.2.1 ++ "-" ++ pad2 c.2.2 ++ "T" ++
    pad2 hh ++ ":" ++ pad2 mm ++ ":" ++ pad2 ss ++ "." ++ pad3 mss ++ "Z"

/-! ## Canonical sample model (frontend/src/health/healthTypes.ts) -/

/-- Payload of a `blood_glucose` sample. -/
structure GlucoseData where
  mg_dl : JsNum
  source : String
deriving DecidableEq, Repr

/-- Payload of a `heart_rate` sample. -/
structure HeartRateData where
  bpm : JsNum
deriving DecidableEq, Repr

/-- Payload of a `blood_pressure` sample. -/
structure BloodPressureData where
  systolic_mmhg : JsNum
  diastolic_mmhg : JsNum
deriving DecidableEq, Repr

/-- Payload of a `steps` sample. -/
structure StepsData where
  spm : JsNum
  interval_minutes : Int
deriving DecidableEq, Repr

/-- Payload of an `exercise_minutes` sample. -/
structure ExerciseData where
  minutes : JsNum
deriving DecidableEq, Repr

/-- Payload of an `ecg` sample; every field is optional and passed through
from the vendor record. -/
structure EcgData where
  average_bpm : Option ℚ
  classification : Option String
  sampling_hz : Option ℚ
  voltage_samples : Option (List (List ℚ))
deriving DecidableEq, Repr

/-- The `data` member of the `HealthSample` tagged union, discriminated by
the same six tags as the TypeScript union. -/
inductive SampleData where
  | blood_glucose : GlucoseData → SampleData
  | heart_rate : HeartRateData → SampleData
  | blood_pressure : BloodPressureData → SampleData
  | steps : StepsData → SampleData
  | exercise_minutes : ExerciseData → SampleData
  | ecg : EcgData → SampleData
deriving DecidableEq, Repr

/-- The discriminant string of a `SampleData` value. -/
def SampleData.typeTag : SampleData → String
  | SampleData.blood_glucose _ => "blood_glucose"
  | SampleData.heart_rate _ => "heart_rate"
  | SampleData.blood_pressure _ => "blood_pressure"
  | SampleData.steps _ => "steps"
  | SampleData.exercise_minutes _ => "exercise_minutes"
  | SampleData.ecg _ => "ecg"

/-- One canonical health sample: the TS tagged union
`{type, timestamp: Date, data}`. -/
structure HealthSample where
  timestamp : Date
  data : SampleData
deriving DecidableEq, Repr

/-- The `type` discriminant of a canonical sample. -/
def HealthSample.type (s : HealthSample) : String := s.data.typeTag

/-- Number of samples in a list carrying a given type tag. -/
def countTag (t : String) (l : List HealthSample) : Nat :=
  (l.filter fun s => s.type == t).length

/-- The `mg_dl` component of a glucose sample, `none` on other variants. -/
def glucoseMgDl (s : HealthSample) : Option JsNum :=
  match s.data with
  | SampleData.blood_glucose d => some d.mg_dl
  | _ => none

/-- The `source` component of a glucose sample, `none` on other variants. -/
def glucoseSource (s : HealthSample) : Option String :=
  match s.data with
  | SampleData.blood_glucose d => some d.source
  | _ => none

/-! ## Sync pipeline (frontend/src/health/sync.ts, frontend/src/api/types.ts) -/

/-- `StorageMode` from api/types.ts. -/
inductive StorageMode where
  | raw
  | aggregated
  | local_only
deriving DecidableEq, Repr

/-- Wire ingest sample `{type, timestamp: ISO string, end_time?, data}` from
api/types.ts. -/
structure IngestSample where
  type : String
  timestamp : String
  end_time : Option String
  data : SampleData
deriving DecidableEq, Repr

/-- `toIngestSamples` from sync.ts: serialize each canonical sample to the
wire shape, branch for branch with the TS if-chain (the trailing branch is
the `ecg` case). -/
def toIngestSamples (samples : List HealthSample) : List IngestSample :=
  samples.map fun s =>
    let timestamp := s.timestamp.toISOString
    match s.data with
    | SampleData.blood_glucose d =>
        ⟨"blood_glucose", timestamp, none, SampleData.blood_glucose d⟩
    | SampleData.heart_rate d =>
        ⟨"heart_rate", timestamp, none, SampleData.heart_rate d⟩
    | SampleData.blood_pressure d =>
        ⟨"blood_pressure", timestamp, none, SampleData.blood_pressure d⟩
    | SampleData.steps d =>
        ⟨"steps", timestamp, none, SampleData.steps d⟩
    | SampleData.exercise_minutes d =>
        ⟨"exercise_minutes", timestamp, none, SampleData.exercise_minutes d⟩
    | SampleData.ecg d =>
        ⟨"ecg", timestamp, none, SampleData.ecg d⟩

/-- The POST /samples request body `{user_id, storage_mode, samples}`. -/
structure IngestPayload where
  user_id : String
  storage_mode : StorageMode
  samples : List IngestSample
deriving DecidableEq, Repr

/-- `SyncResult`: counts reported by `uploadToBackend`. -/
structure SyncResult where
  uploaded : Int
  skipped : Int
deriving DecidableEq, Repr

/-- Observable outcome of one `uploadToBackend` call: the returned counts
plus the ingest request that went over the network, `none` when no network
call was issued. -/
structure UploadOutcome where
  result : SyncResult
  request : Option IngestPayload
deriving DecidableEq, Repr

/-- `uploadToBackend` from sync.ts.  The backend (`api.post`) is an
environment parameter: `Except.error` is a network/HTTP failure, otherwise
it yields the backend-reported `inserted` count. -/
def uploadToBackend (userId : String) (storageMode : StorageMode)
    (samples : List HealthSample)
    (backend : IngestPayload → Except String Int) :
    Except String UploadOutcome :=
  if storageMode = StorageMode.local_only then
    Except.ok ⟨⟨0, (samples.length : Int)⟩, none⟩
  else
    let payload : IngestPayload := ⟨userId, storageMode, toIngestSamples samples⟩
    match backend payload with
    | Except.error e => Except.error e
    | Except.ok inserted =>
        Except.ok ⟨⟨inserted, (samples.length : Int) - inserted⟩, some payload⟩

/-! ## Platform connector: vendor records and normalization

The iOS branch of `readLast24h` reads HealthKit sample arrays; the Android
branch reads Health Connect record lists.  Each structure below carries
exactly the fields the corresponding loop reads. -/

/-- The mmol/L → mg/dL conversion factor 18.018 used by both branches. -/
def mmolToMgDl : ℚ := 18018 / 1000

/-- iOS HealthKit blood-glucose sample: `value`, `unit`,
`metadata.HKWasUserEntered` (truthiness collapsed to `Bool`, `false` when
the metadata or the flag is absent or falsy), `startDate`. -/
structure IOSGlucoseRec where
  value : Option ℚ
  unit : Option String
  hkWasUserEntered : Bool
  startDate : Date
deriving DecidableEq, Repr

/-- iOS HealthKit scalar sample `{value, startDate}`: the shape the code
reads from heart-rate, daily-step-count and exercise-time records. -/
structure IOSValueRec where
  value : Option ℚ
  startDate : Date
deriving DecidableEq, Repr

/-- iOS HealthKit blood-pressure correlation sample. -/
structure IOSBPRec where
  bloodPressureSystolicValue : Option ℚ
  bloodPressureDiastolicValue : Option ℚ
  startDate : Date
deriving DecidableEq, Repr

/-- iOS HealthKit electrocardiogram sample. -/
structure IOSEcgRec where
  averageHeartRate : Option ℚ
  classification : Option String
  samplingFrequency : Option ℚ
  voltageMeasurements : Option (List (List ℚ))
  startDate : Date
deriving DecidableEq, Repr

/-- iOS glucose normalization: `Number(g.value)`, times 18.018 when the
vendor unit is `mmolPerL` or `mmol/L`; `source` is `manual` exactly on a
truthy `HKWasUserEntered`, else `cgm`. -/
def normGlucoseIOS (g : IOSGlucoseRec) : HealthSample :=
  ⟨g.startDate, SampleData.blood_glucose
    ⟨if g.unit = some "mmolPerL" ∨ g.unit = some "mmol/L" then
        JsNum.mul (jsNumber g.value) (JsNum.num mmolToMgDl)
      else jsNumber g.value,
     if g.hkWasUserEntered then "manual" else "cgm"⟩⟩

/-- iOS heart-rate normalization: direct `Number(h.value)` passthrough. -/
def normHeartRateIOS (h : IOSValueRec) : HealthSample :=
  ⟨h.startDate, SampleData.heart_rate ⟨jsNumber h.value⟩⟩

/-- iOS blood-pressure normalization: the loop pushes a sample for every
record, with `Number` applied to each component (NaN when absent) — it has
no completeness check. -/
def normBloodPressureIOS (b : IOSBPRec) : HealthSample :=
  ⟨b.startDate, SampleData.blood_pressure
    ⟨jsNumber b.bloodPressureSystolicValue,
     jsNumber b.bloodPressureDiastolicValue⟩⟩

/-- iOS steps normalization: HealthKit daily buckets are mapped to
`spm = Number(s.value) / (24*60)` and `interval_minutes = 24*60`. -/
def normStepsIOS (s : IOSValueRec) : HealthSample :=
  ⟨s.startDate, SampleData.steps
    ⟨JsNum.divInt (jsNumber s.value) (24 * 60), 24 * 60⟩⟩

/-- iOS exercise normalization: direct `Number(m.value)` passthrough. -/
def normExerciseIOS (m : IOSValueRec) : HealthSample :=
  ⟨m.startDate, SampleData.exercise_minutes ⟨jsNumber m.value⟩⟩

/-- iOS ECG normalization: field-for-field passthrough. -/
def normEcgIOS (e : IOSEcgRec) : HealthSample :=
  ⟨e.startDate, SampleData.ecg
    ⟨e.averageHeartRate, e.classification, e.samplingFrequency,
     e.voltageMeasurements⟩⟩

/-- Health Connect blood-glucose `level` object. -/
structure GlucoseLevel where
  inMgPerDl : Option ℚ
  inMmolPerL : Option ℚ
deriving DecidableEq, Repr

/-- Health Connect blood-glucose record: the code reads `level`,
`metadata.dataOrigin` and `time`.  `userEntered` models the vendor-side
user-entered marking (Health Connect's manual-entry recording method),
which the code does not consult; it is carried to state spec-level
properties about the tagging. -/
structure AndroidGlucoseRec where
  level : Option GlucoseLevel
  dataOrigin : Option String
  userEntered : Bool
  time : Date
deriving DecidableEq, Repr

/-- JS truthiness of a possibly-missing string: missing and empty are
falsy. -/
def jsTruthyStr : Option String → Bool
  | none => false
  | some s => s != ""

/-- The mg/dL value the Android glucose loop computes:
`g.level?.inMgPerDl ?? (g.level?.inMmolPerL ? inMmolPerL * 18.018 :
undefined)`.  A present `inMgPerDl` (even 0) wins; otherwise a truthy
(nonzero) `inMmolPerL` is converted; otherwise undefined. -/
def androidGlucoseMgDl (g : AndroidGlucoseRec) : Option ℚ :=
  match g.level with
  | none => none
  | some lvl =>
    match lvl.inMgPerDl with
    | some v => some v
    | none =>
      match lvl.inMmolPerL with
      | some m => if m ≠ 0 then some (m * mmolToMgDl) else none
      | none => none

/-- Android glucose normalization: emit only when a mg/dL value was
derived; `source` is `cgm` on a truthy `metadata.dataOrigin`, else
`manual`. -/
def normGlucoseAndroid (g : AndroidGlucoseRec) : Option HealthSample :=
  (androidGlucoseMgDl g).map fun v =>
    ⟨g.time, SampleData.blood_glucose
      ⟨JsNum.num v, if jsTruthyStr g.dataOrigin then "cgm" else "manual"⟩⟩

/-- Nested per-sample reading of a Health Connect heart-rate record. -/
structure AndroidHRInner where
  beatsPerMinute : Option ℚ
deriving DecidableEq, Repr

/-- Health Connect heart-rate record: scalar `beatsPerMinute` or a nested
`samples` array. -/
structure AndroidHRRec where
  beatsPerMinute : Option ℚ
  samples : Option (List AndroidHRInner)
  time : Date
deriving DecidableEq, Repr

/-- The bpm value the Android heart-rate loop computes:
`h.beatsPerMinute ?? h.samples?.[0]?.beatsPerMinute ?? undefined`. -/
def androidHRBpm (h : AndroidHRRec) : Option ℚ :=
  match h.beatsPerMinute with
  | some b => some b
  | none =>
    match h.samples with
    | none => none
    | some l =>
      match l.head? with
      | none => none
      | some inner => inner.beatsPerMinute

/-- Android heart-rate normalization: emit only when a bpm was found. -/
def normHeartRateAndroid (h : AndroidHRRec) : Option HealthSample :=
  (androidHRBpm h).map fun b => ⟨h.time, SampleData.heart_rate ⟨JsNum.num b⟩⟩

/-- Health Connect blood-pressure record: the code reads
`systolic?.inMillimetersOfMercury`, `diastolic?.inMillimetersOfMercury`
and `time`. -/
structure AndroidBPRec where
  systolic : Option ℚ
  diastolic : Option ℚ
  time : Date
deriving DecidableEq, Repr

/-- Android blood-pressure normalization: emit only when both components
are present. -/
def normBloodPressureAndroid (b : AndroidBPRec) : Option HealthSample :=
  match b.systolic, b.diastolic with
  | some s, some d =>
      some ⟨b.time, SampleData.blood_pressure ⟨JsNum.num s, JsNum.num d⟩⟩
  | _, _ => none

/-- Health Connect steps record: interval `[startTime, endTime]` with a
`count`. -/
structure AndroidStepsRec where
  startTime : Date
  endTime : Date
  count : Option ℚ
deriving DecidableEq, Repr

/-- Health Connect exercise-session record: interval only. -/
structure AndroidExerciseRec where
  startTime : Date
  endTime : Date
deriving DecidableEq, Repr

/-- `Math.round((end.getTime() - start.getTime()) / 60000)`. -/
def intervalMinutes (startTime endTime : Date) : Int :=
  jsRound (((endTime.ms - startTime.ms : Int) : ℚ) / 60000)

/-- Android steps normalization: minutes clamped to a floor of 1, spm is
count divided by the clamped minutes. -/
def normStepsAndroid (s : AndroidStepsRec) : HealthSample :=
  ⟨s.startTime, SampleData.steps
    ⟨JsNum.divInt (jsNumber s.count)
       (max 1 (intervalMinutes s.startTime s.endTime)),
     max 1 (intervalMinutes s.startTime s.endTime)⟩⟩

/-- Android exercise normalization: whole minutes of the session interval,
floored at 0. -/
def normExerciseAndroid (ex : AndroidExerciseRec) : HealthSample :=
  ⟨ex.startTime, SampleData.exercise_minutes
    ⟨JsNum.num ((max 0 (intervalMinutes ex.startTime ex.endTime) : Int) : ℚ)⟩⟩

/-! ## Platform connector: readLast24h and requestPermissions -/

/-- The runtime platform (`Platform.OS`): the code branches on `ios`,
`android`, and falls through to the unsupported-platform return for
anything else (modelled as `web`). -/
inductive OS where
  | ios
  | android
  | web
deriving DecidableEq, Repr

/-- Result of one platform category query.  `Except.error` is a rejected
promise (the per-category callback reported an error), `Except.ok none` a
resolution with a null/undefined record set (coalesced to `[]` by the
code's `?? []`), and `Except.ok (some l)` a resolved record list. -/
abbrev QueryResult (α : Type) := Except String (Option (List α))

/-- The six iOS category queries issued by `Promise.all`. -/
structure IOSQueries where
  glucose : QueryResult IOSGlucoseRec
  hr : QueryResult IOSValueRec
  bp : QueryResult IOSBPRec
  stepsDaily : QueryResult IOSValueRec
  ex : QueryResult IOSValueRec
  ecg : QueryResult IOSEcgRec

/-- The five Android category queries issued by `Promise.all` (ECG is not
queried on this path). -/
structure AndroidQueries where
  glucose : QueryResult AndroidGlucoseRec
  hr : QueryResult AndroidHRRec
  bp : QueryResult AndroidBPRec
  steps : QueryResult AndroidStepsRec
  exercise : QueryResult AndroidExerciseRec

/-- `HealthReadResult` from healthTypes.ts. -/
structure HealthReadResult where
  samples : List HealthSample
  unavailable : Option String
deriving DecidableEq, Repr

/-- The platform environment a `readLast24h` call runs against: the OS and
the record sets its category queries would produce for the requested
window. -/
structure PlatformEnv where
  os : OS
  iosQ : IOSQueries
  androidQ : AndroidQueries

/-- The iOS branch of `readLast24h`: `Promise.all` over six category
queries — any rejected query rejects the whole join, so the read only
yields samples when every category query settled successfully; null record
sets are coalesced to `[]`; the six normalization loops push into one list
in category order. -/
def readIOS (q : IOSQueries) : Except String HealthReadResult :=
  match q.glucose, q.hr, q.bp, q.stepsDaily, q.ex, q.ecg with
  | Except.ok glucose, Except.ok hr, Except.ok bp, Except.ok stepsDaily,
    Except.ok ex, Except.ok ecg =>
      Except.ok ⟨(glucose.getD []).map normGlucoseIOS ++
        (hr.getD []).map normHeartRateIOS ++
        (bp.getD []).map normBloodPressureIOS ++
        (stepsDaily.getD []).map normStepsIOS ++
        (ex.getD []).map normExerciseIOS ++
        (ecg.getD []).map normEcgIOS, none⟩
  | Except.error e, _, _, _, _, _ => Except.error e
  | _, Except.error e, _, _, _, _ => Except.error e
  | _, _, Except.error e, _, _, _ => Except.error e
  | _, _, _, Except.error e, _, _ => Except.error e
  | _, _, _, _, Except.error e, _ => Except.error e
  | _, _, _, _, _, Except.error e => Except.error e

/-- The Android branch of `readLast24h`: `Promise.all` over five category
queries; `(res)?.records ?? []` coalesces null; the glucose, heart-rate
and blood-pressure loops emit conditionally, steps and exercise always. -/
def readAndroid (q : AndroidQueries) : Except String HealthReadResult :=
  match q.glucose, q.hr, q.bp, q.steps, q.exercise with
  | Except.ok glucose, Except.ok hr, Except.ok bp, Except.ok steps,
    Except.ok exercise =>
      Except.ok ⟨(glucose.getD []).filterMap normGlucoseAndroid ++
        (hr.getD []).filterMap normHeartRateAndroid ++
        (bp.getD []).filterMap normBloodPressureAndroid ++
        (steps.getD []).map normStepsAndroid ++
        (exercise.getD []).map normExerciseAndroid, none⟩
  | Except.error e, _, _, _, _ => Except.error e
  | _, Except.error e, _, _, _ => Except.error e
  | _, _, Except.error e, _, _ => Except.error e
  | _, _, _, Except.error e, _ => Except.error e
  | _, _, _, _, Except.error e => Except.error e

/-- `readLast24h`: dispatch on the platform; any platform other than iOS
and Android short-circuits with `unavailable` set and no samples. -/
def readLast24h (env : PlatformEnv) : Except String HealthReadResult :=
  match env.os with
  | OS.ios => readIOS env.iosQ
  | OS.android => readAndroid env.androidQ
  | OS.web => Except.ok ⟨[], some "Unsupported platform"⟩

/-- Whether a read settled successfully (`false` exactly on the rejected
promise / thrown error outcome). -/
def Except.isOkB : Except String HealthReadResult → Bool
  | Except.ok _ => true
  | Except.error _ => false

/-- The samples of a successful read outcome (`[]` on a failed one). -/
def resultSamples : Except String HealthReadResult → List HealthSample
  | Except.ok r => r.samples
  | Except.error _ => []

/-- The seven HealthKit read permissions requested by the iOS branch of
`requestPermissions`. -/
def iosPermissionNames : List String :=
  ["BloodGlucose", "HeartRate", "BloodPressureSystolic",
   "BloodPressureDiastolic", "StepCount", "AppleExerciseTime",
   "Electrocardiogram"]

/-- The five Health Connect record types requested (accessType read) by the
Android branch of `requestPermissions`. -/
def androidPermissionRequests : List String :=
  ["BloodGlucose", "HeartRate", "BloodPressure", "Steps", "ExerciseSession"]

/-- The data category covered by one HealthKit permission name. -/
def iosPermCategory (p : String) : String :=
  if p = "BloodGlucose" then "blood_glucose"
  else if p = "HeartRate" then "heart_rate"
  else if p = "BloodPressureSystolic" then "blood_pressure"
  else if p = "BloodPressureDiastolic" then "blood_pressure"
  else if p = "StepCount" then "steps"
  else if p = "AppleExerciseTime" then "exercise_minutes"
  else "ecg"

/-- The data category covered by one Health Connect record type. -/
def androidPermCategory (p : String) : String :=
  if p = "BloodGlucose" then "blood_glucose"
  else if p = "HeartRate" then "heart_rate"
  else if p = "BloodPressure" then "blood_pressure"
  else if p = "Steps" then "steps"
  else "exercise_minutes"

/-- The six data categories of the canonical model. -/
def sixCategories : List String :=
  ["blood_glucose", "heart_rate", "blood_pressure", "steps",
   "exercise_minutes", "ecg"]

/-- Return value of `requestPermissions`. -/
structure PermissionResult where
  granted : Bool
  reason : Option String
deriving DecidableEq, Repr

/-- Environment of one `requestPermissions` call: the OS, the outcome of
the iOS `initHealthKit` call (error covers both a missing module and a
callback error, carrying the caught message), and the outcome of the
Android `requestPermission` call (on success, the list of granted
permissions). -/
structure PermissionEnv where
  os : OS
  iosInitHealthKit : Except String Unit
  androidRequestPermission : Except String (List String)

/-- `requestPermissions`: iOS requests the seven HealthKit read permissions
in one `initHealthKit` batch and reports any caught error as the reason;
Android requests the five Health Connect record types and reports granted
when the returned grant list is nonempty, with no reason on a resolved
denial; other platforms are unsupported.  The function is total: it never
throws to its caller. -/
def requestPermissions (env : PermissionEnv) : PermissionResult :=
  match env.os with
  | OS.ios =>
    match env.iosInitHealthKit with
    | Except.ok _ => ⟨true, none⟩
    | Except.error e => ⟨false, some e⟩
  | OS.android =>
    match env.androidRequestPermission with
    | Except.ok granted => ⟨decide (granted.length > 0), none⟩
    | Except.error e => ⟨false, some e⟩
  | OS.web => ⟨false, some "Unsupported platform"⟩

/-! ## Concrete inputs used by witnesses and counterexamples -/

/-- A concrete glucose sample used by witnesses. -/
def sampleGlucoseW : HealthSample :=
  ⟨⟨3600000⟩, SampleData.blood_glucose ⟨JsNum.num 140, "cgm"⟩⟩

/-- A concrete heart-rate sample used by witnesses. -/
def sampleHeartRateW : HealthSample :=
  ⟨⟨7200000⟩, SampleData.heart_rate ⟨JsNum.num 71⟩⟩

/-- A backend stub that accepts one sample. -/
def backendInsertsOneW : IngestPayload → Except String Int :=
  fun _ => Except.ok 1

/-- The outcome of uploading the two witness samples through
`backendInsertsOneW` in `raw` mode. -/
def uploadOutcomeW : UploadOutcome :=
  ⟨⟨1, 1⟩, some ⟨"user-1", StorageMode.raw,
    toIngestSamples [sampleGlucoseW, sampleHeartRateW]⟩⟩

/-- iOS queries that all settle with empty record sets. -/
def emptyIOSQueries : IOSQueries :=
  ⟨Except.ok (some []), Except.ok (some []), Except.ok (some []),
   Except.ok (some []), Except.ok (some []), Except.ok (some [])⟩

/-- Android queries that all settle with empty record sets. -/
def emptyAndroidQueries : AndroidQueries :=
  ⟨Except.ok (some []), Except.ok (some []), Except.ok (some []),
   Except.ok (some []), Except.ok (some [])⟩

/-- A concrete heart-rate vendor record. -/
def iosHRRecC3 : IOSValueRec := ⟨some 72, ⟨1000⟩⟩

/-- iOS queries where the glucose query rejected while the heart-rate query
succeeded with one record. -/
def iosQueriesGlucoseFailed : IOSQueries :=
  ⟨Except.error "glucose query failed", Except.ok (some [iosHRRecC3]),
   Except.ok (some []), Except.ok (some []), Except.ok (some []),
   Except.ok (some [])⟩

/-- Environment for the C3 counterexample. -/
def envGlucoseFailed : PlatformEnv :=
  ⟨OS.ios, iosQueriesGlucoseFailed, emptyAndroidQueries⟩

/-- iOS queries where the glucose query resolved null and the heart-rate
query returned one record. -/
def iosQueriesGlucoseNull : IOSQueries :=
  ⟨Except.ok none, Except.ok (some [iosHRRecC3]), Except.ok (some []),
   Except.ok (some []), Except.ok (some []), Except.ok (some [])⟩

/-- Environment for the C3 amended witness: iOS, glucose resolved null,
one heart-rate record. -/
def envGlucoseNull : PlatformEnv :=
  ⟨OS.ios, iosQueriesGlucoseNull, emptyAndroidQueries⟩

/-- The spec's end-to-end glucose scenario record: 7.8 mmol/L, not
user-entered, at T0+1h. -/
def iosGlucoseMmolRecW : IOSGlucoseRec :=
  ⟨some (78 / 10), some "mmol/L", false, ⟨3600000⟩⟩

/-- An Android glucose record carrying only a mmol/L level. -/
def androidGlucoseMmolRecW : AndroidGlucoseRec :=
  ⟨some ⟨none, some (78 / 10)⟩, some "com.vendor.cgm", false, ⟨3600000⟩⟩

/-- An Android glucose record with no data origin and no user-entered
marking (8 mmol/L). -/
def androidGlucoseNoOriginRec : AndroidGlucoseRec :=
  ⟨some ⟨none, some 8⟩, none, false, ⟨3600000⟩⟩

/-- An iOS blood-pressure record missing its diastolic value. -/
def iosBPNoDiastolicRec : IOSBPRec := ⟨some 120, none, ⟨0⟩⟩

/-- iOS queries returning a single incomplete blood-pressure record. -/
def iosQueriesIncompleteBP : IOSQueries :=
  ⟨Except.ok (some []), Except.ok (some []),
   Except.ok (some [iosBPNoDiastolicRec]), Except.ok (some []),
   Except.ok (some []), Except.ok (some [])⟩

/-- Environment for the C6 counterexample. -/
def envIncompleteBP : PlatformEnv :=
  ⟨OS.ios, iosQueriesIncompleteBP, emptyAndroidQueries⟩

/-- An Android blood-pressure record missing its diastolic value. -/
def androidBPNoDiastolicRec : AndroidBPRec := ⟨some 120, none, ⟨0⟩⟩

/-- A 10-minute Android steps record with 1200 steps. -/
def androidStepsRecW : AndroidStepsRec := ⟨⟨0⟩, ⟨600000⟩, some 1200⟩

/-- An iOS daily step bucket of 2880 steps. -/
def iosStepsRecW : IOSValueRec := ⟨some 2880, ⟨0⟩⟩

/-- Android permission environment where the permission call resolved with
an empty grant list (a platform-level denial without an exception). -/
def permEnvAndroidDenied : PermissionEnv :=
  ⟨OS.android, Except.ok (), Except.ok []⟩

/-- iOS permission environment where `initHealthKit` reported an error. -/
def permEnvIOSFailed : PermissionEnv :=
  ⟨OS.ios, Except.error "HealthKit permission failed", Except.ok []⟩

/-- Android queries with one record in every category, used to witness the
absence of ECG samples on the Android read path. -/
def androidQueriesFullW : AndroidQueries :=
  ⟨Except.ok (some [androidGlucoseMmolRecW]),
   Except.ok (some [⟨some 70, none, ⟨2000⟩⟩]),
   Except.ok (some [⟨some 120, some 80, ⟨3000⟩⟩]),
   Except.ok (some [androidStepsRecW]),
   Except.ok (some [⟨⟨0⟩, ⟨1800000⟩⟩])⟩

/-- Android environment populated with one record per category. -/
def envAndroidFullW : PlatformEnv :=
  ⟨OS.android, emptyIOSQueries, androidQueriesFullW⟩

/-- The read result of `envAndroidFullW` (defined, since the read
succeeds). -/
def androidReadResultW : HealthReadResult :=
  (readLast24h envAndroidFullW).toOption.getD ⟨[], none⟩

/-! ## Helper lemmas -/

/-- `countTag` distributes over append. -/
theorem countTag_append (t : String) (a b : List HealthSample) :
    countTag t (a ++ b) = countTag t a + countTag t b := by
  simp [countTag, List.filter_append]

/-- Mapping a normalizer whose output always carries tag `t` over a list
yields one `t`-sample per record. -/
theorem countTag_map_const {α : Type} (t : String) (f : α → HealthSample)
    (hf : ∀ a, (f a).type = t) (l : List α) :
    countTag t (l.map f) = l.length := by
  induction l with
  | nil => rfl
  | cons a l ih =>
    simp only [List.map_cons, countTag, List.filter_cons] at ih ⊢
    rw [if_pos (by simp [hf a])]
    simp [ih]

/-- Mapping a normalizer whose output never carries tag `t` over a list
contributes no `t`-samples. -/
theorem countTag_map_ne {α : Type} (t : String) (f : α → HealthSample)
    (hf : ∀ a, (f a).type ≠ t) (l : List α) :
    countTag t (l.map f) = 0 := by
  induction l with
  | nil => rfl
  | cons a l ih =>
    simp only [List.map_cons, countTag, List.filter_cons] at ih ⊢
    rw [if_neg (by simp [hf a])]
    exact ih

/-- Filter-mapping a partial normalizer whose emitted samples always carry
tag `t` contributes exactly its emitted samples to the `t`-count. -/
theorem countTag_filterMap_const {α : Type} (t : String)
    (f : α → Option HealthSample)
    (hf : ∀ a s, f a = some s → s.type = t) (l : List α) :
    countTag t (l.filterMap f) = (l.filterMap f).length := by
  induction l with
  | nil => rfl
  | cons a l ih =>
    rw [List.filterMap_cons]
    cases hfa : f a with
    | none => exact ih
    | some s =>
      simp only [countTag, List.filter_cons, List.length_cons] at ih ⊢
      rw [if_pos (by simp [hf a s hfa])]
      simp only [List.length_cons, ih]

/-- Filter-mapping a partial normalizer whose emitted samples never carry
tag `t` contributes no `t`-samples. -/
theorem countTag_filterMap_ne {α : Type} (t : String)
    (f : α → Option HealthSample)
    (hf : ∀ a s, f a = some s → s.type ≠ t) (l : List α) :
    countTag t (l.filterMap f) = 0 := by
  induction l with
  | nil => rfl
  | cons a l ih =>
    rw [List.filterMap_cons]
    cases hfa : f a with
    | none => exact ih
    | some s =>
      simp only [countTag, List.filter_cons] at ih ⊢
      rw [if_neg (by simp [hf a s hfa])]
      exact ih

/-- Every sample emitted by the Android glucose loop is a glucose
sample. -/
theorem normGlucoseAndroid_type (a : AndroidGlucoseRec) (s : HealthSample)
    (h : normGlucoseAndroid a = some s) : s.type = "blood_glucose" := by
  unfold normGlucoseAndroid at h
  rcases Option.map_eq_some'.mp h with ⟨v, _, rfl⟩
  rfl

/-- Every sample emitted by the Android heart-rate loop is a heart-rate
sample. -/
theorem normHeartRateAndroid_type (a : AndroidHRRec) (s : HealthSample)
    (h : normHeartRateAndroid a = some s) : s.type = "heart_rate" := by
  unfold normHeartRateAndroid at h
  rcases Option.map_eq_some'.mp h with ⟨v, _, rfl⟩
  rfl

/-- Every sample emitted by the Android blood-pressure loop is a
blood-pressure sample. -/
theorem normBloodPressureAndroid_type (b : AndroidBPRec) (s : HealthSample)
    (h : normBloodPressureAndroid b = some s) : s.type = "blood_pressure" := by
  cases b with
  | mk sys dia t =>
    cases sys with
    | none => cases dia <;> exact Option.noConfusion h
    | some sv =>
      cases dia with
      | none => exact Option.noConfusion h
      | some dv =>
        simp only [normBloodPressureAndroid, Option.some.injEq] at h
        subst h
        rfl

/-- Tag computed by the iOS glucose normalizer. -/
theorem normGlucoseIOS_type (g : IOSGlucoseRec) :
    (normGlucoseIOS g).type = "blood_glucose" := rfl

/-- Tag computed by the iOS heart-rate normalizer. -/
theorem normHeartRateIOS_type (h : IOSValueRec) :
    (normHeartRateIOS h).type = "heart_rate" := rfl

/-- Tag computed by the iOS blood-pressure normalizer. -/
theorem normBloodPressureIOS_type (b : IOSBPRec) :
    (normBloodPressureIOS b).type = "blood_pressure" := rfl

/-- Tag computed by the iOS steps normalizer. -/
theorem normStepsIOS_type (s : IOSValueRec) :
    (normStepsIOS s).type = "steps" := rfl

/-- Tag computed by the iOS exercise normalizer. -/
theorem normExerciseIOS_type (m : IOSValueRec) :
    (normExerciseIOS m).type = "exercise_minutes" := rfl

/-- Tag computed by the iOS ECG normalizer. -/
theorem normEcgIOS_type (e : IOSEcgRec) :
    (normEcgIOS e).type = "ecg" := rfl

/-- Tag computed by the Android steps normalizer. -/
theorem normStepsAndroid_type (s : AndroidStepsRec) :
    (normStepsAndroid s).type = "steps" := rfl

/-- Tag computed by the Android exercise normalizer. -/
theorem normExerciseAndroid_type (ex : AndroidExerciseRec) :
    (normExerciseAndroid ex).type = "exercise_minutes" := rfl

/-! ## Claims C1, C2, C9 -/

/-- C1: for every `uploadToBackend` call, for all storage modes and every
backend-reported inserted count, the returned `SyncResult` satisfies
`uploaded + skipped = samples.length`. -/
theorem uploadToBackend_accounting (userId : String) (storageMode : StorageMode)
    (samples : List HealthSample) (backend : IngestPayload → Except String Int)
    (out : UploadOutcome)
    (h : uploadToBackend userId storageMode samples backend = Except.ok out) :
    out.result.uploaded + out.result.skipped = (samples.length : Int) := by
  unfold uploadToBackend at h
  split at h
  · simp only [Except.ok.injEq] at h
    subst h
    simp
  · cases hb : backend ⟨userId, storageMode, toIngestSamples samples⟩ with
    | error e => simp only [hb] at h; exact absurd h (by simp)
    | ok inserted =>
      simp only [hb, Except.ok.injEq] at h
      subst h
      simp

/-- Witness for C1: at a concrete call with 2 samples and inserted = 1,
uploaded + skipped = 2. -/
theorem uploadToBackend_accounting_witness :
    uploadOutcomeW.result.uploaded + uploadOutcomeW.result.skipped =
      (([sampleGlucoseW, sampleHeartRateW] : List HealthSample).length : Int) :=
  uploadToBackend_accounting "user-1" StorageMode.raw
    [sampleGlucoseW, sampleHeartRateW] backendInsertsOneW uploadOutcomeW (by rfl)

/-- C2: with `storageMode = local_only`, `uploadToBackend` issues no network
request and constructs no ingest payload (the outcome's request component is
`none`), and returns exactly `uploaded = 0`, `skipped = samples.length`. -/
theorem uploadToBackend_local_only (userId : String)
    (samples : List HealthSample)
    (backend : IngestPayload → Except String Int) :
    uploadToBackend userId StorageMode.local_only samples backend =
      Except.ok ⟨⟨0, (samples.length : Int)⟩, none⟩ := rfl

/-- C9: `toIngestSamples` returns one wire sample per input sample, at the
same index, preserving the type tag and the data object unchanged, with the
timestamp stringified via `toISOString` and `end_time` never populated. -/
theorem toIngestSamples_shape (samples : List HealthSample) :
    (toIngestSamples samples).length = samples.length ∧
    ∀ i : Nat, ∀ s : HealthSample, samples[i]? = some s →
      (toIngestSamples samples)[i]? =
        some ⟨s.type, s.timestamp.toISOString, none, s.data⟩ := by
  constructor
  · simp [toIngestSamples]
  · intro i s hs
    unfold toIngestSamples
    rw [List.getElem?_map, hs]
    cases s with
    | mk timestamp data => cases data <;> rfl

/-- Witness for C9: at index 1 of the two-sample witness list, the wire
sample is the heart-rate sample serialized with its ISO timestamp and no
end_time. -/
theorem toIngestSamples_shape_witness :
    (toIngestSamples [sampleGlucoseW, sampleHeartRateW])[1]? =
      some ⟨sampleHeartRateW.type, sampleHeartRateW.timestamp.toISOString,
        none, sampleHeartRateW.data⟩ :=
  (toIngestSamples_shape [sampleGlucoseW, sampleHeartRateW]).2 1
    sampleHeartRateW (by rfl)

/-! ## Claim C3 -/

/-- C3 counterexample: with the heart-rate query succeeding (one record)
but the glucose query rejecting, `readLast24h` on iOS fails as a whole
(the rejected category propagates through `Promise.all`) instead of
returning the heart-rate sample alongside zero glucose samples. -/
theorem readLast24h_category_failure_fails_whole_read :
    iosQueriesGlucoseFailed.hr = Except.ok (some [iosHRRecC3]) ∧
    readLast24h envGlucoseFailed = Except.error "glucose query failed" :=
  ⟨rfl, rfl⟩

/-- C3 amended: on either available platform, a category query that
rejects fails the entire `readLast24h` call as one unit (whichever of the
categories it is); when every category query resolves, the read succeeds
and each category contributes exactly the samples normalized from its own
record set — so a category resolving with a null record set contributes
zero samples while every other category's samples are still returned in
full; a non-iOS/Android platform short-circuits with `unavailable` set. -/
theorem readLast24h_degradation_policy :
    (∀ env : PlatformEnv, env.os = OS.ios → ∀ msg : String,
      (env.iosQ.glucose = Except.error msg ∨
       env.iosQ.hr = Except.error msg ∨
       env.iosQ.bp = Except.error msg ∨
       env.iosQ.stepsDaily = Except.error msg ∨
       env.iosQ.ex = Except.error msg ∨
       env.iosQ.ecg = Except.error msg) →
      Except.isOkB (readLast24h env) = false) ∧
    (∀ env : PlatformEnv, env.os = OS.android → ∀ msg : String,
      (env.androidQ.glucose = Except.error msg ∨
       env.androidQ.hr = Except.error msg ∨
       env.androidQ.bp = Except.error msg ∨
       env.androidQ.steps = Except.error msg ∨
       env.androidQ.exercise = Except.error msg) →
      Except.isOkB (readLast24h env) = false) ∧
    (∀ env : PlatformEnv, env.os = OS.ios →
      ∀ go : Option (List IOSGlucoseRec), ∀ ho : Option (List IOSValueRec),
      ∀ bo : Option (List IOSBPRec), ∀ so : Option (List IOSValueRec),
      ∀ eo : Option (List IOSValueRec), ∀ co : Option (List IOSEcgRec),
      env.iosQ.glucose = Except.ok go → env.iosQ.hr = Except.ok ho →
      env.iosQ.bp = Except.ok bo → env.iosQ.stepsDaily = Except.ok so →
      env.iosQ.ex = Except.ok eo → env.iosQ.ecg = Except.ok co →
      Except.isOkB (readLast24h env) = true ∧
      countTag "blood_glucose" (resultSamples (readLast24h env)) =
        (go.getD []).length ∧
      countTag "heart_rate" (resultSamples (readLast24h env)) =
        (ho.getD []).length ∧
      countTag "blood_pressure" (resultSamples (readLast24h env)) =
        (bo.getD []).length ∧
      countTag "steps" (resultSamples (readLast24h env)) =
        (so.getD []).length ∧
      countTag "exercise_minutes" (resultSamples (readLast24h env)) =
        (eo.getD []).length ∧
      countTag "ecg" (resultSamples (readLast24h env)) =
        (co.getD []).length) ∧
    (∀ env : PlatformEnv, env.os = OS.android →
      ∀ go : Option (List AndroidGlucoseRec),
      ∀ ho : Option (List AndroidHRRec), ∀ bo : Option (List AndroidBPRec),
      ∀ so : Option (List AndroidStepsRec),
      ∀ eo : Option (List AndroidExerciseRec),
      env.androidQ.glucose = Except.ok go → env.androidQ.hr = Except.ok ho →
      env.androidQ.bp = Except.ok bo → env.androidQ.steps = Except.ok so →
      env.androidQ.exercise = Except.ok eo →
      Except.isOkB (readLast24h env) = true ∧
      countTag "blood_glucose" (resultSamples (readLast24h env)) =
        ((go.getD []).filterMap normGlucoseAndroid).length ∧
      countTag "heart_rate" (resultSamples (readLast24h env)) =
        ((ho.getD []).filterMap normHeartRateAndroid).length ∧
      countTag "blood_pressure" (resultSamples (readLast24h env)) =
        ((bo.getD []).filterMap normBloodPressureAndroid).length ∧
      countTag "steps" (resultSamples (readLast24h env)) =
        (so.getD []).length ∧
      countTag "exercise_minutes" (resultSamples (readLast24h env)) =
        (eo.getD []).length ∧
      countTag "ecg" (resultSamples (readLast24h env)) = 0) ∧
    (∀ env : PlatformEnv, env.os = OS.web →
      readLast24h env = Except.ok ⟨[], some "Unsupported platform"⟩) := by
  refine ⟨?_, ?_, ?_, ?_, ?_⟩
  · intro env hos msg h
    rcases env with ⟨o, qi, qa⟩
    dsimp only at hos
    subst hos
    rcases qi with ⟨g1, q1, b1, s1, e1, c1⟩
    dsimp only at h
    cases g1 <;> cases q1 <;> cases b1 <;> cases s1 <;> cases e1 <;>
      cases c1 <;>
      first
        | rfl
        | (rcases h with h | h | h | h | h | h <;> exact Except.noConfusion h)
  · intro env hos msg h
    rcases env with ⟨o, qi, qa⟩
    dsimp only at hos
    subst hos
    rcases qa with ⟨g1, q1, b1, s1, e1⟩
    dsimp only at h
    cases g1 <;> cases q1 <;> cases b1 <;> cases s1 <;> cases e1 <;>
      first
        | rfl
        | (rcases h with h | h | h | h | h <;> exact Except.noConfusion h)
  · intro env hos go ho bo so eo co hg hh hb hs he hc
    rcases env with ⟨o, qi, qa⟩
    dsimp only at hos hg hh hb hs he hc
    subst hos
    rcases qi with ⟨g1, q1, b1, s1, e1, c1⟩
    dsimp only at hg hh hb hs he hc
    subst hg; subst hh; subst hb; subst hs; subst he; subst hc
    refine ⟨rfl, ?_, ?_, ?_, ?_, ?_, ?_⟩ <;>
      simp only [readLast24h, readIOS, resultSamples, countTag_append]
    · rw [countTag_map_const _ normGlucoseIOS (fun a => rfl),
        countTag_map_ne _ normHeartRateIOS
          (fun a => by rw [normHeartRateIOS_type]; decide),
        countTag_map_ne _ normBloodPressureIOS
          (fun a => by rw [normBloodPressureIOS_type]; decide),
        countTag_map_ne _ normStepsIOS
          (fun a => by rw [normStepsIOS_type]; decide),
        countTag_map_ne _ normExerciseIOS
          (fun a => by rw [normExerciseIOS_type]; decide),
        countTag_map_ne _ normEcgIOS
          (fun a => by rw [normEcgIOS_type]; decide)]
      omega
    · rw [countTag_map_ne _ normGlucoseIOS
          (fun a => by rw [normGlucoseIOS_type]; decide),
        countTag_map_const _ normHeartRateIOS (fun a => rfl),
        countTag_map_ne _ normBloodPressureIOS
          (fun a => by rw [normBloodPressureIOS_type]; decide),
        countTag_map_ne _ normStepsIOS
          (fun a => by rw [normStepsIOS_type]; decide),
        countTag_map_ne _ normExerciseIOS
          (fun a => by rw [normExerciseIOS_type]; decide),
        countTag_map_ne _ normEcgIOS
          (fun a => by rw [normEcgIOS_type]; decide)]
      omega
    · rw [countTag_map_ne _ normGlucoseIOS
          (fun a => by rw [normGlucoseIOS_type]; decide),
        countTag_map_ne _ normHeartRateIOS
          (fun a => by rw [normHeartRateIOS_type]; decide),
        countTag_map_const _ normBloodPressureIOS (fun a => rfl),
        countTag_map_ne _ normStepsIOS
          (fun a => by rw [normStepsIOS_type]; decide),
        countTag_map_ne _ normExerciseIOS
          (fun a => by rw [normExerciseIOS_type]; decide),
        countTag_map_ne _ normEcgIOS
          (fun a => by rw [normEcgIOS_type]; decide)]
      omega
    · rw [countTag_map_ne _ normGlucoseIOS
          (fun a => by rw [normGlucoseIOS_type]; decide),
        countTag_map_ne _ normHeartRateIOS
          (fun a => by rw [normHeartRateIOS_type]; decide),
        countTag_map_ne _ normBloodPressureIOS
          (fun a => by rw [normBloodPressureIOS_type]; decide),
        countTag_map_const _ normStepsIOS (fun a => rfl),
        countTag_map_ne _ normExerciseIOS
          (fun a => by rw [normExerciseIOS_type]; decide),
        countTag_map_ne _ normEcgIOS
          (fun a => by rw [normEcgIOS_type]; decide)]
      omega
    · rw [countTag_map_ne _ normGlucoseIOS
          (fun a => by rw [normGlucoseIOS_type]; decide),
        countTag_map_ne _ normHeartRateIOS
          (fun a => by rw [normHeartRateIOS_type]; decide),
        countTag_map_ne _ normBloodPressureIOS
          (fun a => by rw [normBloodPressureIOS_type]; decide),
        countTag_map_ne _ normStepsIOS
          (fun a => by rw [normStepsIOS_type]; decide),
        countTag_map_const _ normExerciseIOS (fun a => rfl),
        countTag_map_ne _ normEcgIOS
          (fun a => by rw [normEcgIOS_type]; decide)]
      omega
    · rw [countTag_map_ne _ normGlucoseIOS
          (fun a => by rw [normGlucoseIOS_type]; decide),
        countTag_map_ne _ normHeartRateIOS
          (fun a => by rw [normHeartRateIOS_type]; decide),
        countTag_map_ne _ normBloodPressureIOS
          (fun a => by rw [normBloodPressureIOS_type]; decide),
        countTag_map_ne _ normStepsIOS
          (fun a => by rw [normStepsIOS_type]; decide),
        countTag_map_ne _ normExerciseIOS
          (fun a => by rw [normExerciseIOS_type]; decide),
        countTag_map_const _ normEcgIOS (fun a => rfl)]
      omega
  · intro env hos go ho bo so eo hg hh hb hs he
    rcases env with ⟨o, qi, qa⟩
    dsimp only at hos hg hh hb hs he
    subst hos
    rcases qa with ⟨g1, q1, b1, s1, e1⟩
    dsimp only at hg hh hb hs he
    subst hg; subst hh; subst hb; subst hs; subst he
    refine ⟨rfl, ?_, ?_, ?_, ?_, ?_, ?_⟩ <;>
      simp only [readLast24h, readAndroid, resultSamples, countTag_append]
    · rw [countTag_filterMap_const _ normGlucoseAndroid
          (fun a s ha => normGlucoseAndroid_type a s ha),
        countTag_filterMap_ne _ normHeartRateAndroid
          (fun a s ha => by rw [normHeartRateAndroid_type a s ha]; decide),
        countTag_filterMap_ne _ normBloodPressureAndroid
          (fun a s ha => by rw [normBloodPressureAndroid_type a s ha]; decide),
        countTag_map_ne _ normStepsAndroid
          (fun a => by rw [normStepsAndroid_type]; decide),
        countTag_map_ne _ normExerciseAndroid
          (fun a => by rw [normExerciseAndroid_type]; decide)]
      omega
    · rw [countTag_filterMap_ne _ normGlucoseAndroid
          (fun a s ha => by rw [normGlucoseAndroid_type a s ha]; decide),
        countTag_filterMap_const _ normHeartRateAndroid
          (fun a s ha => normHeartRateAndroid_type a s ha),
        countTag_filterMap_ne _ normBloodPressureAndroid
          (fun a s ha => by rw [normBloodPressureAndroid_type a s ha]; decide),
        countTag_map_ne _ normStepsAndroid
          (fun a => by rw [normStepsAndroid_type]; decide),
        countTag_map_ne _ normExerciseAndroid
          (fun a => by rw [normExerciseAndroid_type]; decide)]
      omega
    · rw [countTag_filterMap_ne _ normGlucoseAndroid
          (fun a s ha => by rw [normGlucoseAndroid_type a s ha]; decide),
        countTag_filterMap_ne _ normHeartRateAndroid
          (fun a s ha => by rw [normHeartRateAndroid_type a s ha]; decide),
        countTag_filterMap_const _ normBloodPressureAndroid
          (fun a s ha => normBloodPressureAndroid_type a s ha),
        countTag_map_ne _ normStepsAndroid
          (fun a => by rw [normStepsAndroid_type]; decide),
        countTag_map_ne _ normExerciseAndroid
          (fun a => by rw [normExerciseAndroid_type]; decide)]
      omega
    · rw [countTag_filterMap_ne _ normGlucoseAndroid
          (fun a s ha => by rw [normGlucoseAndroid_type a s ha]; decide),
        countTag_filterMap_ne _ normHeartRateAndroid
          (fun a s ha => by rw [normHeartRateAndroid_type a s ha]; decide),
        countTag_filterMap_ne _ normBloodPressureAndroid
          (fun a s ha => by rw [normBloodPressureAndroid_type a s ha]; decide),
        countTag_map_const _ normStepsAndroid (fun a => rfl),
        countTag_map_ne _ normExerciseAndroid
          (fun a => by rw [normExerciseAndroid_type]; decide)]
      omega
    · rw [countTag_filterMap_ne _ normGlucoseAndroid
          (fun a s ha => by rw [normGlucoseAndroid_type a s ha]; decide),
        countTag_filterMap_ne _ normHeartRateAndroid
          (fun a s ha => by rw [normHeartRateAndroid_type a s ha]; decide),
        countTag_filterMap_ne _ normBloodPressureAndroid
          (fun a s ha => by rw [normBloodPressureAndroid_type a s ha]; decide),
        countTag_map_ne _ normStepsAndroid
          (fun a => by rw [normStepsAndroid_type]; decide),
        countTag_map_const _ normExerciseAndroid (fun a => rfl)]
      omega
    · rw [countTag_filterMap_ne _ normGlucoseAndroid
          (fun a s ha => by rw [normGlucoseAndroid_type a s ha]; decide),
        countTag_filterMap_ne _ normHeartRateAndroid
          (fun a s ha => by rw [normHeartRateAndroid_type a s ha]; decide),
        countTag_filterMap_ne _ normBloodPressureAndroid
          (fun a s ha => by rw [normBloodPressureAndroid_type a s ha]; decide),
        countTag_map_ne _ normStepsAndroid
          (fun a => by rw [normStepsAndroid_type]; decide),
        countTag_map_ne _ normExerciseAndroid
          (fun a => by rw [normExerciseAndroid_type]; decide)]
  · intro env h
    rcases env with ⟨o, qi, qa⟩
    dsimp only at h
    subst h
    rfl

/-- Witness for the C3 amended theorem: in the concrete iOS environment
whose glucose query resolved null while the heart-rate query returned one
record, the read succeeds, glucose contributes zero samples, and the
heart-rate sample is still returned. -/
theorem readLast24h_degradation_policy_witness :
    Except.isOkB (readLast24h envGlucoseNull) = true ∧
    countTag "blood_glucose" (resultSamples (readLast24h envGlucoseNull)) =
      ((none : Option (List IOSGlucoseRec)).getD []).length ∧
    countTag "heart_rate" (resultSamples (readLast24h envGlucoseNull)) =
      ((some [iosHRRecC3] : Option (List IOSValueRec)).getD []).length := by
  have h := readLast24h_degradation_policy.2.2.1 envGlucoseNull rfl
    none (some [iosHRRecC3]) (some []) (some []) (some []) (some [])
    rfl rfl rfl rfl rfl rfl
  exact ⟨h.1, h.2.1, h.2.2.1⟩

/-! ## Claim C4 -/

/-- C4: glucose unit normalization on both variants: a vendor record whose
unit is mmol/L yields `mg_dl = value * 18.018` (`mmolToMgDl = 18018/1000`),
and a record already in mg/dL passes through numerically unchanged.  On
Android the emitted-sample condition is the truthiness of the mmol value;
a present `inMgPerDl` takes precedence. -/
theorem glucose_unit_conversion :
    (∀ g : IOSGlucoseRec, ∀ v : ℚ, g.value = some v →
      (g.unit = some "mmolPerL" ∨ g.unit = some "mmol/L" →
        glucoseMgDl (normGlucoseIOS g) = some (JsNum.num (v * mmolToMgDl))) ∧
      (g.unit ≠ some "mmolPerL" → g.unit ≠ some "mmol/L" →
        glucoseMgDl (normGlucoseIOS g) = some (JsNum.num v))) ∧
    (∀ a : AndroidGlucoseRec, ∀ lvl : GlucoseLevel, a.level = some lvl →
      (∀ m : ℚ, lvl.inMgPerDl = none → lvl.inMmolPerL = some m → m ≠ 0 →
        (normGlucoseAndroid a).map glucoseMgDl =
          some (some (JsNum.num (m * mmolToMgDl)))) ∧
      (∀ v : ℚ, lvl.inMgPerDl = some v →
        (normGlucoseAndroid a).map glucoseMgDl =
          some (some (JsNum.num v)))) := by
  constructor
  · intro g v hv
    constructor
    · intro hu
      unfold normGlucoseIOS glucoseMgDl
      rw [if_pos hu, hv]
      rfl
    · intro h1 h2
      unfold normGlucoseIOS glucoseMgDl
      rw [if_neg (not_or.mpr ⟨h1, h2⟩), hv]
      rfl
  · intro a lvl hl
    constructor
    · intro m h1 h2 hm
      simp [normGlucoseAndroid, androidGlucoseMgDl, hl, h1, h2, hm,
        glucoseMgDl]
    · intro v h1
      simp [normGlucoseAndroid, androidGlucoseMgDl, hl, h1, glucoseMgDl]

/-- Witness for C4: the spec's 7.8 mmol/L record normalizes to
7.8 * 18.018 mg/dL on both variants. -/
theorem glucose_unit_conversion_witness :
    glucoseMgDl (normGlucoseIOS iosGlucoseMmolRecW) =
      some (JsNum.num (78 / 10 * mmolToMgDl)) ∧
    (normGlucoseAndroid androidGlucoseMmolRecW).map glucoseMgDl =
      some (some (JsNum.num (78 / 10 * mmolToMgDl))) :=
  ⟨(glucose_unit_conversion.1 iosGlucoseMmolRecW (78 / 10) rfl).1
      (Or.inr rfl),
   (glucose_unit_conversion.2 androidGlucoseMmolRecW ⟨none, some (78 / 10)⟩
      rfl).1 (78 / 10) rfl rfl (by norm_num)⟩

/-! ## Claim C5 -/

/-- C5 counterexample: an Android glucose record that the vendor did not
mark as user-entered (and that carries no data origin) is normalized with
source = "manual", where the claim requires "cgm". -/
theorem android_source_manual_without_user_entry :
    androidGlucoseNoOriginRec.userEntered = false ∧
    (normGlucoseAndroid androidGlucoseNoOriginRec).map glucoseSource =
      some (some "manual") := by
  constructor
  · rfl
  · decide

/-- C5 amended: the iOS variant tags source = "manual" exactly when the
vendor marks `HKWasUserEntered` truthy; the Android variant instead keys
on presence of `metadata.dataOrigin` alone — "cgm" when a data origin is
present, "manual" otherwise — ignoring any vendor user-entered marking. -/
theorem glucose_source_tagging :
    (∀ g : IOSGlucoseRec, glucoseSource (normGlucoseIOS g) =
      some (if g.hkWasUserEntered then "manual" else "cgm")) ∧
    (∀ a : AndroidGlucoseRec, (normGlucoseAndroid a).map glucoseSource =
      (androidGlucoseMgDl a).map fun _ =>
        some (if jsTruthyStr a.dataOrigin then "cgm" else "manual")) := by
  constructor
  · intro g
    rfl
  · intro a
    unfold normGlucoseAndroid
    cases androidGlucoseMgDl a <;> rfl

/-! ## Claim C6 -/

/-- C6 counterexample: on iOS a blood-pressure record missing its diastolic
value is still emitted (with NaN diastolic), so one incomplete raw record
yields one normalized blood-pressure sample — not strictly fewer. -/
theorem ios_incomplete_bp_not_dropped :
    iosBPNoDiastolicRec.bloodPressureDiastolicValue = none ∧
    (readLast24h envIncompleteBP).map
      (fun r => countTag "blood_pressure" r.samples) = Except.ok 1 := by
  constructor
  · rfl
  · rfl

/-- C6 amended: the Android variant drops a blood-pressure record missing
either component (so its normalized count can drop below the raw count);
the iOS variant emits exactly one blood-pressure sample per vendor record
unconditionally, a missing component becoming NaN via `Number`. -/
theorem blood_pressure_completeness_policy :
    (∀ b : AndroidBPRec, b.systolic = none ∨ b.diastolic = none →
      normBloodPressureAndroid b = none) ∧
    (∀ b : IOSBPRec, b.bloodPressureDiastolicValue = none →
      normBloodPressureIOS b = ⟨b.startDate, SampleData.blood_pressure
        ⟨jsNumber b.bloodPressureSystolicValue, JsNum.nan⟩⟩) ∧
    (∀ l : List IOSBPRec, (l.map normBloodPressureIOS).length = l.length) := by
  refine ⟨?_, ?_, ?_⟩
  · intro b h
    rcases b with ⟨sys, dia, t⟩
    dsimp only at h
    rcases h with h | h
    · subst h
      cases dia <;> rfl
    · subst h
      cases sys <;> rfl
  · intro b h
    rcases b with ⟨sys, dia, t⟩
    dsimp only at h
    subst h
    rfl
  · intro l
    exact List.length_map l normBloodPressureIOS

/-- Witness for the C6 amended theorem: the concrete Android record missing
its diastolic value is dropped. -/
theorem blood_pressure_completeness_policy_witness :
    normBloodPressureAndroid androidBPNoDiastolicRec = none :=
  blood_pressure_completeness_policy.1 androidBPNoDiastolicRec (Or.inr rfl)

/-! ## Claim C7 -/

/-- C7: steps normalization: on Android, for a record with count c over an
interval of m whole minutes, spm = c / max(1, m) and
interval_minutes = max(1, m); for every record interval_minutes is ≥ 1, so
the division is never by zero; on iOS daily buckets use the fixed whole-day
1440-minute interval with spm = count / 1440. -/
theorem steps_normalization :
    (∀ s : AndroidStepsRec, ∀ c : ℚ, ∀ m : Int, s.count = some c →
      s.endTime.ms = s.startTime.ms + 60000 * m →
      normStepsAndroid s = ⟨s.startTime, SampleData.steps
        ⟨JsNum.num (c / ((max 1 m : Int) : ℚ)), max 1 m⟩⟩) ∧
    (∀ s : AndroidStepsRec,
      1 ≤ max 1 (intervalMinutes s.startTime s.endTime) ∧
      normStepsAndroid s = ⟨s.startTime, SampleData.steps
        ⟨JsNum.divInt (jsNumber s.count)
          (max 1 (intervalMinutes s.startTime s.endTime)),
         max 1 (intervalMinutes s.startTime s.endTime)⟩⟩) ∧
    (∀ s : IOSValueRec, ∀ c : ℚ, s.value = some c →
      normStepsIOS s = ⟨s.startDate, SampleData.steps
        ⟨JsNum.num (c / 1440), 1440⟩⟩) := by
  have hround : ∀ m : Int, jsRound (m : ℚ) = m := by
    intro m
    unfold jsRound
    rw [add_comm, Int.floor_add_int]
    norm_num
  refine ⟨?_, ?_, ?_⟩
  · intro s c m hc hm
    have h1 : intervalMinutes s.startTime s.endTime = m := by
      unfold intervalMinutes
      rw [hm]
      have h2 : ((s.startTime.ms + 60000 * m - s.startTime.ms : Int) : ℚ) =
          60000 * (m : ℚ) := by
        push_cast
        ring
      rw [h2]
      rw [show (60000 : ℚ) * (m : ℚ) / 60000 = (m : ℚ) by
        field_simp]
      exact hround m
    have h3 : (1 : Int) ≤ max 1 m := le_max_left 1 m
    unfold normStepsAndroid
    rw [h1, hc]
    simp only [jsNumber, JsNum.divInt]
    rw [if_neg (by omega)]
  · intro s
    exact ⟨le_max_left _ _, rfl⟩
  · intro s c hc
    unfold normStepsIOS
    rw [hc]
    simp only [jsNumber, JsNum.divInt]
    norm_num

/-- Witness for C7: a 10-minute 1200-step Android record gives
spm = 1200/10 with a 10-minute interval; a 2880-step iOS daily bucket
gives spm = 2880/1440 over 1440 minutes. -/
theorem steps_normalization_witness :
    normStepsAndroid androidStepsRecW =
      ⟨androidStepsRecW.startTime, SampleData.steps
        ⟨JsNum.num (1200 / ((max 1 (10 : Int) : Int) : ℚ)),
         max 1 (10 : Int)⟩⟩ ∧
    normStepsIOS iosStepsRecW =
      ⟨iosStepsRecW.startDate, SampleData.steps
        ⟨JsNum.num (2880 / 1440), 1440⟩⟩ :=
  ⟨steps_normalization.1 androidStepsRecW 1200 10 rfl (by decide),
   steps_normalization.2.2 iosStepsRecW 2880 rfl⟩

/-! ## Claim C8 -/

/-- C8 counterexample: on Android a platform-level denial that resolves
with an empty grant list yields granted = false with NO reason populated,
and the Android batch requests only five categories — ECG is absent. -/
theorem android_denial_without_reason :
    requestPermissions permEnvAndroidDenied =
      ⟨false, (none : Option String)⟩ ∧
    (androidPermissionRequests.map androidPermCategory).contains "ecg" =
      false := by
  constructor
  · rfl
  · rfl

/-- C8 amended: the iOS batch covers all six categories (seven HealthKit
permissions); the Android batch covers five, with no ECG; any caught
platform exception yields granted = false with the reason populated; an
Android permission call that resolves yields granted = (grant list
nonempty) with no reason; unsupported platforms yield granted = false with
a reason.  `requestPermissions` is total, so it never throws. -/
theorem requestPermissions_policy :
    (sixCategories.all
      (fun c => (iosPermissionNames.map iosPermCategory).contains c) = true) ∧
    ((androidPermissionRequests.map androidPermCategory).contains "ecg" =
      false) ∧
    (∀ env : PermissionEnv, env.os = OS.ios → ∀ msg : String,
      env.iosInitHealthKit = Except.error msg →
      requestPermissions env = ⟨false, some msg⟩) ∧
    (∀ env : PermissionEnv, env.os = OS.android → ∀ msg : String,
      env.androidRequestPermission = Except.error msg →
      requestPermissions env = ⟨false, some msg⟩) ∧
    (∀ env : PermissionEnv, env.os = OS.android →
      ∀ granted : List String,
      env.androidRequestPermission = Except.ok granted →
      requestPermissions env = ⟨decide (granted.length > 0), none⟩) ∧
    (∀ env : PermissionEnv, env.os = OS.web →
      requestPermissions env = ⟨false, some "Unsupported platform"⟩) := by
  refine ⟨by decide, by decide, ?_, ?_, ?_, ?_⟩
  · intro env h msg hm
    rcases env with ⟨o, hi, ha⟩
    dsimp only at h hm
    subst h
    subst hm
    rfl
  · intro env h msg hm
    rcases env with ⟨o, hi, ha⟩
    dsimp only at h hm
    subst h
    subst hm
    rfl
  · intro env h granted hg
    rcases env with ⟨o, hi, ha⟩
    dsimp only at h hg
    subst h
    subst hg
    rfl
  · intro env h
    rcases env with ⟨o, hi, ha⟩
    dsimp only at h
    subst h
    rfl

/-- Witness for the C8 amended theorem: a failed iOS `initHealthKit`
yields granted = false with the caught message as reason. -/
theorem requestPermissions_policy_witness :
    requestPermissions permEnvIOSFailed =
      ⟨false, some "HealthKit permission failed"⟩ :=
  requestPermissions_policy.2.2.1 permEnvIOSFailed rfl
    "HealthKit permission failed" rfl

/-! ## Claim C10 -/

/-- C10: a successful `readLast24h` on the Android platform returns no
sample of type "ecg": only the five queried categories are normalized on
that path. -/
theorem readLast24h_android_no_ecg (env : PlatformEnv) (r : HealthReadResult)
    (hos : env.os = OS.android) (h : readLast24h env = Except.ok r) :
    countTag "ecg" r.samples = 0 := by
  unfold readLast24h at h
  rw [hos] at h
  rcases hq : env.androidQ with ⟨g1, q1, b1, s1, e1⟩
  rw [hq] at h
  unfold readAndroid at h
  cases g1 <;> cases q1 <;> cases b1 <;> cases s1 <;> cases e1 <;> cases h
  simp only [countTag_append]
  rw [countTag_filterMap_ne _ normGlucoseAndroid
      (fun a s ha => by rw [normGlucoseAndroid_type a s ha]; decide),
    countTag_filterMap_ne _ normHeartRateAndroid
      (fun a s ha => by rw [normHeartRateAndroid_type a s ha]; decide),
    countTag_filterMap_ne _ normBloodPressureAndroid
      (fun a s ha => by rw [normBloodPressureAndroid_type a s ha]; decide),
    countTag_map_ne _ normStepsAndroid
      (fun a => by rw [normStepsAndroid_type]; decide),
    countTag_map_ne _ normExerciseAndroid
      (fun a => by rw [normExerciseAndroid_type]; decide)]

/-- Witness for C10: the populated concrete Android environment reads
successfully and its result contains no ECG sample. -/
theorem readLast24h_android_no_ecg_witness :
    countTag "ecg" androidReadResultW.samples = 0 :=
  readLast24h_android_no_ecg envAndroidFullW androidReadResultW rfl rfl
